import Mathlib

/-!
Shallow embedding of `src/sc_command.py` (SC Command - Star Citizen event
tracker).  The embedding models the core watcher: per-line pattern
extraction (`FileWatcher.check_file`'s line loop), the byte-offset
reconciliation, the heartbeat gate (`FileWatcher.send_heartbeat`), the
startup identity scan (`FileWatcher.get_player_name`), and the main-loop
backoff policy.  External effects (Redis writes, wall-clock timestamps,
printing) are modelled as returned data; wall-clock timestamp strings on
events and fleet entries are abstracted away since no property depends on
them.

Python string semantics are reproduced structurally over `List Char` so
that all definitions reduce in the kernel:
  * `sub in s`            -> `pyIn sub s` (contiguous-substring test)
  * `s.split(sep)`        -> `pySplit s sep` (leftmost non-overlapping)
  * `s.split(sep)[i]`     -> `(pySplit s sep)[i]?` (raising ~ `none`)
  * `s.startswith(p)`     -> `pyStartsWith s p`
-/

/-- One step of leftmost non-overlapping split over char lists: `sepR` is the
separator reversed, `acc` the current segment reversed.  Cutting at the
earliest-ending occurrence of the separator coincides with Python's
leftmost-starting scan because all occurrences have the same length. -/
def splitChAux (sepR : List Char) (n : Nat) : List Char → List Char → List (List Char)
  | acc, [] => [acc.reverse]
  | acc, c :: cs =>
      let acc' := c :: acc
      if sepR.isPrefixOf acc' then ((acc'.drop n).reverse) :: splitChAux sepR n [] cs
      else splitChAux sepR n acc' cs

/-- Python `s.split(sep)` for a non-empty `sep`, over char lists. -/
def splitCh (sep s : List Char) : List (List Char) :=
  splitChAux sep.reverse sep.length [] s

/-- Python `s.split(sep)` (the program never calls it with an empty
separator, which Python rejects; we return `[s]` there). -/
def pySplit (s sep : String) : List String :=
  if sep.data = [] then [s] else (splitCh sep.data s.data).map String.mk

/-- Contiguous-sublist test over char lists. -/
def containsCh (sub : List Char) : List Char → Bool
  | [] => sub.isPrefixOf []
  | c :: cs => sub.isPrefixOf (c :: cs) || containsCh sub cs

/-- Python `sub in s`: contiguous substring test (`"" in s` is `True`). -/
def pyIn (sub s : String) : Bool := containsCh sub.data s.data

/-- Python `s.startswith(p)`. -/
def pyStartsWith (s p : String) : Bool := p.data.isPrefixOf s.data

/-- Python `str.join`-style interleaving used to model slicing from the
first occurrence of a marker. -/
def joinWith (sep : String) : List String → String
  | [] => ""
  | [x] => x
  | x :: y :: xs => x ++ sep ++ joinWith sep (y :: xs)

/-- Python `line[line.find(marker):]` under the guarantee that `marker`
occurs in `line` (the callers are guarded by `marker in line`). -/
def sliceFromMarker (line marker : String) : String :=
  marker ++ joinWith marker (pySplit line marker).tail

/-!  ### Field parsers (the `try:` bodies of `check_file`)

Each mirrors one chain of `split(...)[i]` slices; an out-of-range `[1]`
raises `IndexError` in Python, modelled as `none`; `[0]` and `[-1]` never
raise on a `split` result and are modelled with `headD` / `getLastD`. -/

/-- `nickname`, `session`, `playerGEID` from an
`<Expect Incoming Connection>` line (sc_command.py lines 211-213). -/
def parseConnection (line : String) : Option (String × String × String) := do
  let t1 ← (pySplit line "nickname=\"")[1]?
  let nickname := (pySplit t1 "\"").headD ""
  let t2 ← (pySplit line "session=")[1]?
  let session := (pySplit t2 " ").headD ""
  let t3 ← (pySplit line "playerGEID=")[1]?
  let player_geid := (pySplit t3 " ").headD ""
  pure (nickname, session, player_geid)

/-- `victim`, `killer`, `damage_type` from an `<Actor Death>` line
(sc_command.py lines 231-233 and 248-250, identical chains). -/
def parseDeath (line : String) : Option (String × String × String) := do
  let victim ← (pySplit line "\x27")[1]?
  let t2 ← (pySplit line "killed by \x27")[1]?
  let killer := (pySplit t2 "\x27").headD ""
  let t3 ← (pySplit line "damage type \x27")[1]?
  let damage_type := (pySplit t3 "\x27").headD ""
  pure (victim, killer, damage_type)

/-- `ship_type`, `ship_id` from a ship-entry line (lines 265-266). -/
def parseShipEntry (line : String) : Option (String × String) := do
  let t1 ← (pySplit line "Entity [")[1]?
  let ship_type := (pySplit t1 "]").headD ""
  let ship_id := (pySplit ship_type "_").getLastD ""
  pure (ship_type, ship_id)

/-- `ship_id` from a `<Vehicle Destruction>` line (lines 286-287). -/
def parseVehicleDestruction (line : String) : Option String := do
  let t1 ← (pySplit line "Vehicle \x27")[1]?
  let ship_type := (pySplit t1 "\x27").headD ""
  pure ((pySplit ship_type "_").getLastD "")

/-- `location` extraction (line 225):
`line[line.find("Location["):].split("]")[0] + "]"`. -/
def locationOf (line : String) : String :=
  (pySplit (sliceFromMarker line "Location[") "]").headD "" ++ "]"

/-!  ### Data model -/

/-- An emitted event (`FileWatcher.save_event`, lines 132-151).  The
wall-clock `timestamp` is abstracted away; `player` is
`self.player_name` at the moment `save_event` runs; `line` is the
`metadata={"line": line}` payload. -/
structure Event where
  player : String
  type : String
  details : List (String × String)
  line : String
deriving DecidableEq

/-- A fleet entry (`ship_data`, lines 269-275, minus the timestamp). -/
structure ShipData where
  id : String
  name : String
  owner : String
  captain : String
deriving DecidableEq

/-- Result of classifying one log line. -/
structure LineResult where
  player : String
  fleet : List ShipData
  events : List Event
deriving DecidableEq

/-!  ### The per-line extractors, one per `if` block of the line loop of
`FileWatcher.check_file` (lines 199-291), in source order.  Each receives
the player name current when its block runs. -/

/-- `<SystemQuit>` block (lines 202-206). -/
def quitEvents (p line : String) : List Event :=
  if pyIn "<SystemQuit>" line then
    [⟨p, "quit", [("status", "offline"), ("player", p)], line⟩]
  else []

/-- `<Expect Incoming Connection>` block (lines 209-221): on a full parse
the player name is overwritten with the nickname *before* the connection
event is saved; on any parse failure nothing is emitted and the name
is untouched. -/
def connStep (p line : String) : String × List Event :=
  if pyIn "<Expect Incoming Connection>" line then
    match parseConnection line with
    | some (nickname, session, player_geid) =>
        (nickname,
         [⟨nickname, "connection",
           [("session", session), ("player_geid", player_geid)], line⟩])
    | none => (p, [])
  else (p, [])

/-- Location block (lines 224-226). -/
def locationEvents (p line : String) : List Event :=
  if pyIn ("Player[" ++ p ++ "]") line && pyIn "Location[" line then
    [⟨p, "location", [("location", locationOf line)], line⟩]
  else []

/-- Player-scoped `<Actor Death>` block (lines 229-243). -/
def deathEvents (p line : String) : List Event :=
  if pyIn "<Actor Death>" line && pyIn p line then
    match parseDeath line with
    | some (victim, killer, damage_type) =>
        if p = victim then
          if victim = killer then
            [⟨p, "death", [("type", "self"), ("cause", damage_type)], line⟩]
          else
            [⟨p, "death",
              [("type", "killed"), ("killer", killer), ("cause", damage_type)], line⟩]
        else if p = killer then
          [⟨p, "kill", [("victim", victim), ("cause", damage_type)], line⟩]
        else []
    | none => [⟨p, "death", [("type", "unknown")], line⟩]
  else []

/-- Unconditional `<Actor Death>` block (lines 246-260). -/
def nearbyDeathEvents (p line : String) : List Event :=
  if pyIn "<Actor Death>" line then
    match parseDeath line with
    | some (victim, killer, damage_type) =>
        if p = victim then
          if victim = killer then
            [⟨p, "nearby_death", [("type", "self"), ("cause", damage_type)], line⟩]
          else
            [⟨p, "nearby_death",
              [("type", "killed"), ("killer", killer), ("cause", damage_type)], line⟩]
        else if p = killer then
          [⟨p, "nearby_kill", [("victim", victim), ("cause", damage_type)], line⟩]
        else []
    | none => [⟨p, "nearby_death", [("type", "unknown")], line⟩]
  else []

/-- Ship-entry block (lines 263-280): appends to the `fleet` collection
(no player event); parse failure or a failed manufacturer test leaves the
fleet untouched. -/
def shipEntryFleet (p : String) (fleet : List ShipData) (line : String) : List ShipData :=
  if pyIn "Entity [" line && pyIn ("m_ownerGEID[" ++ p ++ "]") line
      && pyIn "OnEntityEnterZone" line then
    match parseShipEntry line with
    | some (ship_type, ship_id) =>
        if (pyStartsWith ship_type "AEGS" || pyStartsWith ship_type "ARGO"
            || pyStartsWith ship_type "ANVL" || pyStartsWith ship_type "CRUS"
            || pyStartsWith ship_type "DRAK" || pyStartsWith ship_type "MISC"
            || pyStartsWith ship_type "RSI" || pyStartsWith ship_type "ORIG"
            || pyStartsWith ship_type "MIRA") && pyIn "_" ship_type then
          fleet ++ [⟨ship_id, ship_type, p, p⟩]
        else fleet
    | none => fleet
  else fleet

/-- `<Vehicle Destruction>` block (lines 284-291): emits a
`ship_destroyed` event and deletes every fleet entry whose `id` matches
(the JSONPath `$[?(@.id == <id>)]` delete). -/
def vehicleDestructionStep (p : String) (fleet : List ShipData) (line : String) :
    List ShipData × List Event :=
  if pyIn "<Vehicle Destruction>" line && pyIn "Vehicle \x27" line then
    match parseVehicleDestruction line with
    | some ship_id =>
        (fleet.filter (fun s => s.id ≠ ship_id),
         [⟨p, "ship_destroyed", [("ship", ship_id)], line⟩])
    | none => (fleet, [])
  else (fleet, [])

/-- One iteration of the line loop (lines 199-291): all seven blocks run
on the same line, in source order, the later ones seeing any player-name
overwrite made by the connection block. -/
def processLine (p : String) (fleet : List ShipData) (line : String) : LineResult :=
  let evs0 := quitEvents p line
  let pe := connStep p line
  let evs2 := locationEvents pe.1 line
  let evs3 := deathEvents pe.1 line
  let evs4 := nearbyDeathEvents pe.1 line
  let fleet1 := shipEntryFleet pe.1 fleet line
  let fe := vehicleDestructionStep pe.1 fleet1 line
  ⟨pe.1, fe.1, evs0 ++ pe.2 ++ evs2 ++ evs3 ++ evs4 ++ fe.2⟩

/-- The whole line loop over a batch of freshly read lines. -/
def processLines (p : String) (fleet : List ShipData) : List String → LineResult
  | [] => ⟨p, fleet, []⟩
  | l :: ls =>
      let r := processLine p fleet l
      let rest := processLines r.player r.fleet ls
      ⟨rest.player, rest.fleet, r.events ++ rest.events⟩

/-!  ### Watcher state, heartbeat and poll (`check_file`, lines 176-294)

The poll's interaction with the file system is modelled by two inputs:
`size?` is the result of `os.path.getsize` (line 178), `none` when it
raises; `read?` is the batch of lines obtained by `seek`/`readlines`
(lines 193-196), `none` when opening or reading raises.  Both failures
land in the outer `except` (line 293), which only prints.  Wall-clock
instants are integers (seconds). -/

structure WatcherSt where
  player_name : String
  last_position : Nat
  last_change_time : Int
deriving DecidableEq

/-- A field write into the `sc_player_heartbeats` hash plus its
field-level `HEXPIRE` (lines 163-164). -/
structure HeartbeatWrite where
  field : String
  ttl : Nat
deriving DecidableEq

/-- `FileWatcher.send_heartbeat` (lines 156-166): writes only when at
most 30 seconds passed since the last observed change, always with a
60-second field expiry on the player's field. -/
def send_heartbeat (player_name : String) (current_time last_change_time : Int) :
    Option HeartbeatWrite :=
  if current_time - last_change_time ≤ 30 then some ⟨player_name, 60⟩ else none

/-- The `seek` target of the poll: the stored offset, forced to `0` when
the file shrank below it (lines 179-181). -/
def effectiveStart (last_position current_size : Nat) : Nat :=
  if current_size < last_position then 0 else last_position

/-- Everything one `check_file` call produces. -/
structure PollResult where
  st : WatcherSt
  fleet : List ShipData
  events : List Event
  heartbeat : Option HeartbeatWrite
deriving DecidableEq

/-- `FileWatcher.check_file` (lines 176-294).  On a successful read the
new offset is `file.tell()` after `readlines`, i.e. the size observed at
the start of the poll (the file is taken as quiescent within one poll).
Note the truncation reset (line 181) mutates `last_position` *before*
the open, so it survives a subsequent read failure. -/
def check_file (st : WatcherSt) (now : Int) (size? : Option Nat)
    (read? : Option (List String)) (fleet : List ShipData) : PollResult :=
  match size? with
  | none => ⟨st, fleet, [], none⟩
  | some current_size =>
    let lp := effectiveStart st.last_position current_size
    if current_size = lp then
      ⟨⟨st.player_name, lp, st.last_change_time⟩, fleet, [],
       send_heartbeat st.player_name now st.last_change_time⟩
    else
      let hb := send_heartbeat st.player_name now now
      match read? with
      | none => ⟨⟨st.player_name, lp, now⟩, fleet, [], hb⟩
      | some new_lines =>
          let r := processLines st.player_name fleet new_lines
          ⟨⟨r.player, current_size, now⟩, r.fleet, r.events, hb⟩

/-!  ### Startup identity scan (`get_player_name`, lines 296-308) -/

/-- The login-marker test and name extraction for one scanned line
(lines 300-303); `none` when the line is not a match. -/
def extractLoginName (line : String) : Option String :=
  if pyIn "<AccountLoginCharacterStatus_Character>" line && pyIn "name " line then
    some ((pySplit ((pySplit line "name ").getD 1 "") " -").headD "")
  else none

/-- `FileWatcher.get_player_name`: scans the file line by line and
returns the first extracted name; reaching end of file without a match,
or failing to read the file at all (`none` input), is `sys.exit(1)`,
modelled as `.error` carrying the exit code. -/
def get_player_name (fileLines : Option (List String)) : Except Nat String :=
  match fileLines with
  | none => .error 1
  | some ls =>
      match ls.findSome? extractLoginName with
      | some name => .ok name
      | none => .error 1

/-!  ### Main loop scheduling (`main`, lines 330-339) -/

/-- How one loop iteration can end. -/
inductive IterationOutcome
  | ok
  | redisError
  | genericError
deriving DecidableEq

/-- The nominal poll interval: `time.sleep(30)` (line 333). -/
def poll_interval : Nat := 30

/-- Seconds slept after an iteration: 30 normally (line 333), 30 after a
`redis.RedisError` (line 336), 10 after any other exception (line 339). -/
def iteration_sleep : IterationOutcome → Nat
  | .ok => 30
  | .redisError => 30
  | .genericError => 10

/-- Both `except` arms fall through to the next `while True` iteration:
no outcome terminates the loop. -/
def iteration_continues : IterationOutcome → Bool := fun _ => true

/-!  ### Helper lemmas about the extractors -/

theorem mem_quitEvents {e : Event} {p line : String}
    (h : e ∈ quitEvents p line) : e.type = "quit" ∧ e.player = p := by
  unfold quitEvents at h
  split at h <;> simp_all

theorem mem_connStep_snd {e : Event} {p line : String}
    (h : e ∈ (connStep p line).2) : e.type = "connection" := by
  unfold connStep at h
  split at h
  · split at h <;> simp_all
  · simp_all

theorem mem_locationEvents {e : Event} {p line : String}
    (h : e ∈ locationEvents p line) : e.type = "location" ∧ e.player = p := by
  unfold locationEvents at h
  split at h <;> simp_all

theorem mem_deathEvents {e : Event} {p line : String}
    (h : e ∈ deathEvents p line) :
    (e.type = "death" ∨ e.type = "kill") ∧ e.player = p := by
  unfold deathEvents at h
  split at h
  · split at h
    · split at h
      · split at h <;> simp_all
      · split at h <;> simp_all
    · simp_all
  · simp_all

theorem mem_nearbyDeathEvents {e : Event} {p line : String}
    (h : e ∈ nearbyDeathEvents p line) :
    (e.type = "nearby_death" ∨ e.type = "nearby_kill") ∧ e.player = p := by
  unfold nearbyDeathEvents at h
  split at h
  · split at h
    · split at h
      · split at h <;> simp_all
      · split at h <;> simp_all
    · simp_all
  · simp_all

theorem mem_vehicleDestructionStep_snd {e : Event} {p line : String}
    {fleet : List ShipData} (h : e ∈ (vehicleDestructionStep p fleet line).2) :
    e.type = "ship_destroyed" ∧ e.player = p := by
  unfold vehicleDestructionStep at h
  split at h
  · split at h <;> simp_all
  · simp_all

/-- The connection block is inert when its trigger substring is absent. -/
theorem connStep_of_no_trigger {p line : String}
    (h : pyIn "<Expect Incoming Connection>" line = false) :
    connStep p line = (p, []) := by
  unfold connStep
  simp [h]

/-- The connection block is inert when the field parse fails. -/
theorem connStep_of_parse_failure {p line : String}
    (h : parseConnection line = none) :
    connStep p line = (p, []) := by
  unfold connStep
  split <;> simp [h]

/-- A full parse overwrites the name with the nickname and emits the
connection event (carrying the new name). -/
theorem connStep_of_parse_success {p line n sess geid : String}
    (ht : pyIn "<Expect Incoming Connection>" line = true)
    (hp : parseConnection line = some (n, sess, geid)) :
    connStep p line =
      (n, [⟨n, "connection", [("session", sess), ("player_geid", geid)], line⟩]) := by
  unfold connStep
  simp [ht, hp]

/-- Without a parsed connection overwrite, a line leaves the player name
unchanged. -/
theorem processLine_player_of_no_trigger {p line : String} {fleet : List ShipData}
    (h : pyIn "<Expect Incoming Connection>" line = false) :
    (processLine p fleet line).player = p := by
  unfold processLine
  rw [connStep_of_no_trigger h]

/-- Every event a line emits carries the player name that was current
when its block ran; when the line is not a connection line that name is
the incoming one for every block. -/
theorem processLine_events_player {p line : String} {fleet : List ShipData}
    (h : pyIn "<Expect Incoming Connection>" line = false) :
    ∀ e ∈ (processLine p fleet line).events, e.player = p := by
  intro e he
  unfold processLine at he
  rw [connStep_of_no_trigger h] at he
  simp only [List.mem_append] at he
  rcases he with ((((he | he) | he) | he) | he) | he
  · exact (mem_quitEvents he).2
  · simp at he
  · exact (mem_locationEvents he).2
  · exact (mem_deathEvents he).2
  · exact (mem_nearbyDeathEvents he).2
  · exact (mem_vehicleDestructionStep_snd he).2

/-- Batch processing splits at any cut point: the events of the prefix
are emitted as computed from the incoming state, and the suffix runs in
the state the prefix left behind. -/
theorem processLines_append (p : String) (fleet : List ShipData)
    (xs ys : List String) :
    processLines p fleet (xs ++ ys) =
      ⟨(processLines (processLines p fleet xs).player (processLines p fleet xs).fleet ys).player,
       (processLines (processLines p fleet xs).player (processLines p fleet xs).fleet ys).fleet,
       (processLines p fleet xs).events ++
         (processLines (processLines p fleet xs).player (processLines p fleet xs).fleet ys).events⟩ := by
  induction xs generalizing p fleet with
  | nil => simp [processLines]
  | cons l ls ih =>
      simp only [List.cons_append, processLines]
      rw [show ∀ (a : List String) (b : List String), a.append b = a ++ b from fun _ _ => rfl, ih]
      simp [List.append_assoc]

/-- A batch containing no connection trigger preserves the player name
and stamps it on every emitted event. -/
theorem processLines_no_trigger {p : String} {fleet : List ShipData}
    {ls : List String}
    (h : ∀ l ∈ ls, pyIn "<Expect Incoming Connection>" l = false) :
    (processLines p fleet ls).player = p ∧
      ∀ e ∈ (processLines p fleet ls).events, e.player = p := by
  induction ls generalizing p fleet with
  | nil => simp [processLines]
  | cons l ls ih =>
      have hl := h l (by simp)
      have hrest : ∀ x ∈ ls, pyIn "<Expect Incoming Connection>" x = false :=
        fun x hx => h x (by simp [hx])
      have hp : (processLine p fleet l).player = p := processLine_player_of_no_trigger hl
      constructor
      · simp only [processLines]
        rw [hp]
        exact (ih hrest).1
      · intro e he
        simp only [processLines, List.mem_append] at he
        rcases he with he | he
        · exact processLine_events_player hl e he
        · rw [hp] at he
          exact (ih hrest).2 e he

/-!  ### Claim theorems -/

/-- C2: after reconciliation the tracked offset is at most the current
file size; across polls it never decreases except on a size regression,
where the poll's read starts at offset 0. -/
theorem C2_offset_reconciliation (st : WatcherSt) (now : Int) (s : Nat)
    (rd : Option (List String)) (fleet : List ShipData) :
    effectiveStart st.last_position s ≤ s ∧
    (check_file st now (some s) rd fleet).st.last_position ≤ s ∧
    (st.last_position ≤ s →
      st.last_position ≤ (check_file st now (some s) rd fleet).st.last_position) ∧
    (s < st.last_position → effectiveStart st.last_position s = 0) := by
  refine ⟨?_, ?_, fun hmono => ?_, fun htr => ?_⟩
  · unfold effectiveStart; split <;> omega
  · unfold check_file effectiveStart
    cases rd <;> (dsimp only; split_ifs <;> dsimp only <;> omega)
  · unfold check_file effectiveStart
    cases rd <;> (dsimp only; split_ifs <;> dsimp only <;> omega)
  · unfold effectiveStart; split <;> omega

theorem C2_offset_reconciliation_witness :
    (5 : Nat) ≤ 7 ∧
      (5 : Nat) ≤ (check_file ⟨"P", 5, 0⟩ 0 (some 7) (some []) []).st.last_position :=
  ⟨by decide, (C2_offset_reconciliation ⟨"P", 5, 0⟩ 0 7 (some []) []).2.2.1 (by decide)⟩

/-- C3: on every successful poll, a heartbeat for the current player
with a 60-second field expiry is written exactly when at most 30 seconds
elapsed since the (reconciled) last-activity time; a stale session gets
no write. -/
theorem C3_heartbeat_gating (st : WatcherSt) (now : Int) (s : Nat)
    (rd : Option (List String)) (fleet : List ShipData) :
    ((check_file st now (some s) rd fleet).heartbeat = some ⟨st.player_name, 60⟩ ↔
      now - (check_file st now (some s) rd fleet).st.last_change_time ≤ 30) ∧
    (30 < now - (check_file st now (some s) rd fleet).st.last_change_time →
      (check_file st now (some s) rd fleet).heartbeat = none) := by
  unfold check_file send_heartbeat effectiveStart
  cases rd <;> (dsimp only; split_ifs <;> dsimp only <;> constructor) <;>
    simp_all

theorem C3_heartbeat_gating_witness :
    ((check_file ⟨"P", 5, 0⟩ 45 (some 5) (some []) []).heartbeat = some ⟨"P", 60⟩ ↔
      (45 : Int) - (check_file ⟨"P", 5, 0⟩ 45 (some 5) (some []) []).st.last_change_time ≤ 30) ∧
    ((30 : Int) < 45 - (check_file ⟨"P", 5, 0⟩ 45 (some 5) (some []) []).st.last_change_time →
      (check_file ⟨"P", 5, 0⟩ 45 (some 5) (some []) []).heartbeat = none) :=
  C3_heartbeat_gating ⟨"P", 5, 0⟩ 45 5 (some []) []

/-- C6: observed backoff policy of the main loop: a store error sleeps
30 seconds - equal to, not longer than, the nominal interval - while a
generic error sleeps 10 seconds; neither outcome stops the loop. -/
theorem C6_backoff_policy :
    iteration_sleep .redisError = poll_interval ∧
    ¬ poll_interval < iteration_sleep .redisError ∧
    iteration_sleep .genericError < iteration_sleep .redisError ∧
    iteration_continues .redisError = true ∧
    iteration_continues .genericError = true := by
  decide

/-- C8 counterexample: a poll that sees a shrunken size (5 -> 3) and
then fails to read leaves the offset at 0, not at its previous value 5,
because the truncation reset precedes the failed open. -/
theorem C8_counterexample :
    (check_file ⟨"P", 5, 0⟩ 0 (some 3) none []).st.last_position = 0 ∧
    ¬ (check_file ⟨"P", 5, 0⟩ 0 (some 3) none []).st.last_position = 5 ∧
    (check_file ⟨"P", 5, 0⟩ 0 (some 3) none []).events = [] := by
  decide

/-- C8 amended: an I/O failure emits no events; a size-check failure
leaves the whole state untouched; a read failure leaves the offset at
the reconciled start of the failed read, which equals the previous
offset whenever no truncation was observed. -/
theorem C8_io_error_poll (st : WatcherSt) (now : Int) (s : Nat)
    (rd : Option (List String)) (fleet : List ShipData) :
    check_file st now none rd fleet = ⟨st, fleet, [], none⟩ ∧
    (check_file st now (some s) none fleet).events = [] ∧
    (check_file st now (some s) none fleet).st.last_position =
      effectiveStart st.last_position s ∧
    (st.last_position ≤ s →
      (check_file st now (some s) none fleet).st.last_position = st.last_position) := by
  refine ⟨rfl, ?_, ?_, fun hmono => ?_⟩
  · unfold check_file
    dsimp only
    split_ifs <;> rfl
  · unfold check_file
    dsimp only
    split_ifs <;> rfl
  · unfold check_file effectiveStart
    dsimp only
    split_ifs <;> dsimp only <;> omega

theorem C8_io_error_poll_witness :
    (5 : Nat) ≤ 9 ∧
      (check_file ⟨"P", 5, 0⟩ 0 (some 9) none []).st.last_position = 5 :=
  ⟨by decide, (C8_io_error_poll ⟨"P", 5, 0⟩ 0 9 none []).2.2.2 (by decide)⟩

/-- C9: startup cannot proceed without an identity: an unreadable file
or a scan that reaches end of file with no login-marker match ends in
`sys.exit(1)`. -/
theorem C9_startup_fatal (ls : List String)
    (h : ∀ l ∈ ls, extractLoginName l = none) :
    get_player_name (some ls) = .error 1 ∧ get_player_name none = .error 1 := by
  refine ⟨?_, rfl⟩
  unfold get_player_name
  dsimp only
  rw [List.findSome?_eq_none_iff.mpr h]

theorem C9_startup_fatal_witness :
    get_player_name (some ["<SystemQuit> x", "plain line"]) = .error 1 ∧
      get_player_name none = .error 1 :=
  C9_startup_fatal ["<SystemQuit> x", "plain line"] (by decide)

/-!  ### C1: the unconditional nearby-death family -/

/-- Membership test for the `nearby_` event family. -/
def isNearbyFamily (e : Event) : Bool :=
  e.type == "nearby_death" || e.type == "nearby_kill"

/-- Amended specification of the unconditional `<Actor Death>` extractor:
`nearby_death`/`self` for a self kill of the tracked player,
`nearby_death`/`killed` when the player is the victim, `nearby_kill`
when the player is the killer, `nearby_death`/`unknown` on parse
failure - and *no* event when the line parses but the tracked player is
neither victim nor killer. -/
def nearbyFamilySpec (p line : String) : List Event :=
  match parseDeath line with
  | some (victim, killer, damage_type) =>
      if p = victim then
        if victim = killer then
          [⟨p, "nearby_death", [("type", "self"), ("cause", damage_type)], line⟩]
        else
          [⟨p, "nearby_death",
            [("type", "killed"), ("killer", killer), ("cause", damage_type)], line⟩]
      else if p = killer then
        [⟨p, "nearby_kill", [("victim", victim), ("cause", damage_type)], line⟩]
      else []
  | none => [⟨p, "nearby_death", [("type", "unknown")], line⟩]

/-- A well-formed `<Actor Death>` line in which the tracked player is
neither victim nor killer. -/
def c1line : String :=
  "<Actor Death> CActor::Kill: \x27Victim1\x27 [52] in zone killed by \x27Killer1\x27 [53] with damage type \x27Bullet\x27"

/-- C1 counterexample: on `c1line` (trigger present, all three fields
parse, tracked player `PlayerOne` neither victim nor killer) the line
loop emits no event at all, refuting the unconditional emission. -/
theorem C1_counterexample :
    pyIn "<Actor Death>" c1line = true ∧
    parseDeath c1line = some ("Victim1", "Killer1", "Bullet") ∧
    ¬ ("PlayerOne" = "Victim1") ∧ ¬ ("PlayerOne" = "Killer1") ∧
    (processLine "PlayerOne" [] c1line).events = [] := by
  decide

theorem nearbyDeathEvents_not_family_nil {e : Event} (p line : String)
    (hq : e ∈ quitEvents p line ∨ e ∈ locationEvents p line ∨
      e ∈ deathEvents p line ∨
      (∃ f : List ShipData, e ∈ (vehicleDestructionStep p f line).2)) :
    isNearbyFamily e = false := by
  unfold isNearbyFamily
  rcases hq with h | h | h | ⟨f, h⟩
  · rw [(mem_quitEvents h).1]; rfl
  · rw [(mem_locationEvents h).1]; rfl
  · rcases (mem_deathEvents h).1 with ht | ht <;> rw [ht] <;> rfl
  · rw [(mem_vehicleDestructionStep_snd h).1]; rfl

/-- C1 amended: on a non-connection line containing `<Actor Death>`,
the events of the `nearby_` family that the line loop emits are exactly
those of `nearbyFamilySpec`: self/killed/kill sub-typing when the
tracked player is victim or killer, `unknown` on parse failure, nothing
when the line parses and the player is uninvolved. -/
theorem C1_nearby_family (p line : String) (f : List ShipData)
    (hdeath : pyIn "<Actor Death>" line = true)
    (hconn : pyIn "<Expect Incoming Connection>" line = false) :
    (processLine p f line).events.filter isNearbyFamily = nearbyFamilySpec p line := by
  unfold processLine
  rw [connStep_of_no_trigger hconn]
  dsimp only
  rw [List.filter_append, List.filter_append, List.filter_append,
    List.filter_append, List.filter_append]
  rw [List.filter_eq_nil_iff.mpr
    (fun e he => by simp [nearbyDeathEvents_not_family_nil p line (Or.inl he)])]
  rw [show (List.filter isNearbyFamily [] : List Event) = [] from rfl]
  rw [List.filter_eq_nil_iff.mpr
    (fun e he => by simp [nearbyDeathEvents_not_family_nil p line (Or.inr (Or.inl he))])]
  rw [List.filter_eq_nil_iff.mpr
    (fun e he => by simp [nearbyDeathEvents_not_family_nil p line (Or.inr (Or.inr (Or.inl he)))])]
  rw [List.filter_eq_self.mpr
    (fun e he => by
      unfold isNearbyFamily
      rcases (mem_nearbyDeathEvents he).1 with ht | ht <;> simp [ht])]
  rw [List.filter_eq_nil_iff.mpr
    (fun e he => by
      simp [nearbyDeathEvents_not_family_nil p line
        (Or.inr (Or.inr (Or.inr ⟨shipEntryFleet p f line, he⟩)))])]
  simp only [List.nil_append, List.append_nil]
  unfold nearbyDeathEvents nearbyFamilySpec
  rw [if_pos hdeath]

theorem C1_nearby_family_witness :
    pyIn "<Actor Death>" c1line = true ∧
    pyIn "<Expect Incoming Connection>" c1line = false ∧
    (processLine "PlayerOne" [] c1line).events.filter isNearbyFamily =
      nearbyFamilySpec "PlayerOne" c1line :=
  ⟨by decide, by decide,
    C1_nearby_family "PlayerOne" c1line [] (by decide) (by decide)⟩

/-!  ### C7 / C4 / C10: identity handling -/

/-- A parsed connection line overwrites the player name with the parsed
nickname, verbatim. -/
theorem processLine_player_overwrite {p line n sess geid : String}
    {f : List ShipData}
    (ht : pyIn "<Expect Incoming Connection>" line = true)
    (hp : parseConnection line = some (n, sess, geid)) :
    (processLine p f line).player = n := by
  unfold processLine
  rw [connStep_of_parse_success ht hp]

/-- A connection line whose nickname field is the empty string. -/
def c7line : String :=
  "<Expect Incoming Connection> nickname=\"\" session=4 playerGEID=5 end"

/-- C7 counterexample: processing `c7line` (which parses successfully
with `nickname=\"\"`) overwrites a non-empty player name with the empty
string, refuting the never-empty invariant. -/
theorem C7_counterexample :
    parseConnection c7line = some ("", "4", "5") ∧
    (processLine "Alice" [] c7line).player = "" ∧
    ¬ ("Alice" = "") := by
  decide

/-- C7 amended: the identity overwrite installs exactly the parsed
nickname - empty or not; no non-emptiness guard exists anywhere on the
path, so "once set, never empty" does not hold. -/
theorem C7_identity_overwrite (p : String) (f : List ShipData)
    (line n sess geid : String)
    (ht : pyIn "<Expect Incoming Connection>" line = true)
    (hp : parseConnection line = some (n, sess, geid)) :
    (processLine p f line).player = n :=
  processLine_player_overwrite ht hp

theorem C7_identity_overwrite_witness :
    pyIn "<Expect Incoming Connection>" c7line = true ∧
    parseConnection c7line = some ("", "4", "5") ∧
    (processLine "Alice" [] c7line).player = "" :=
  ⟨by decide, by decide,
    C7_identity_overwrite "Alice" [] c7line "" "4" "5" (by decide) (by decide)⟩

/-- C4: a batch splits around a successfully parsed connection line:
events from the earlier lines are exactly those computed from the old
name (and carry it when no earlier line is itself a connection line);
the connection line leaves the new nickname as the player name; and all
events of the later lines (none of which renegotiates the identity)
carry the new name. -/
theorem C4_identity_continuity (p0 : String) (f0 : List ShipData)
    (pre : List String) (c : String) (post : List String)
    (n sess geid : String)
    (ht : pyIn "<Expect Incoming Connection>" c = true)
    (hp : parseConnection c = some (n, sess, geid))
    (hpost : ∀ l ∈ post, pyIn "<Expect Incoming Connection>" l = false) :
    (processLine (processLines p0 f0 pre).player (processLines p0 f0 pre).fleet c).player = n ∧
    processLines p0 f0 (pre ++ c :: post) =
      ⟨(processLines n (processLine (processLines p0 f0 pre).player (processLines p0 f0 pre).fleet c).fleet post).player,
       (processLines n (processLine (processLines p0 f0 pre).player (processLines p0 f0 pre).fleet c).fleet post).fleet,
       (processLines p0 f0 pre).events ++
         ((processLine (processLines p0 f0 pre).player (processLines p0 f0 pre).fleet c).events ++
           (processLines n (processLine (processLines p0 f0 pre).player (processLines p0 f0 pre).fleet c).fleet post).events)⟩ ∧
    (∀ e ∈ (processLines n (processLine (processLines p0 f0 pre).player (processLines p0 f0 pre).fleet c).fleet post).events,
      e.player = n) ∧
    ((∀ l ∈ pre, pyIn "<Expect Incoming Connection>" l = false) →
      ∀ e ∈ (processLines p0 f0 pre).events, e.player = p0) := by
  have hplayer :
      (processLine (processLines p0 f0 pre).player (processLines p0 f0 pre).fleet c).player = n :=
    processLine_player_overwrite ht hp
  refine ⟨hplayer, ?_, (processLines_no_trigger hpost).2, fun hpre => (processLines_no_trigger hpre).2⟩
  rw [processLines_append]
  simp only [processLines]
  rw [hplayer]

theorem C4_identity_continuity_witness :
    (processLine "OldName" []
      "<Expect Incoming Connection> nickname=\"NewName\" session=7 playerGEID=8 tail").player =
      "NewName" :=
  (C4_identity_continuity "OldName" [] []
    "<Expect Incoming Connection> nickname=\"NewName\" session=7 playerGEID=8 tail"
    ["<SystemQuit> bye"] "NewName" "7" "8" (by decide) (by decide) (by decide)).1

/-- A line whose connection trigger is present but unparsable, and whose
`<Actor Death>` trigger is present but unparsable. -/
def c10line : String := "<Expect Incoming Connection> <Actor Death> garbage"

/-- C10: when the connection-field parse fails, the player name is
untouched and no `connection` event is emitted; the later checks of the
same line still run (an unparsable `<Actor Death>` still yields its
`unknown` fallback) and the following lines are still processed. -/
theorem C10_connection_parse_failure (p : String) (f : List ShipData)
    (line : String) (rest : List String)
    (hfail : parseConnection line = none) :
    (processLine p f line).player = p ∧
    (∀ e ∈ (processLine p f line).events, ¬ e.type = "connection") ∧
    ((pyIn "<Actor Death>" line = true ∧ parseDeath line = none) →
      Event.mk p "nearby_death" [("type", "unknown")] line ∈ (processLine p f line).events) ∧
    processLines p f (line :: rest) =
      ⟨(processLines p (processLine p f line).fleet rest).player,
       (processLines p (processLine p f line).fleet rest).fleet,
       (processLine p f line).events ++
         (processLines p (processLine p f line).fleet rest).events⟩ := by
  have hplayer : (processLine p f line).player = p := by
    unfold processLine
    rw [connStep_of_parse_failure hfail]
  refine ⟨hplayer, ?_, ?_, ?_⟩
  · intro e he
    unfold processLine at he
    rw [connStep_of_parse_failure hfail] at he
    dsimp only at he
    simp only [List.mem_append] at he
    rcases he with ((((he | he) | he) | he) | he) | he
    · rw [(mem_quitEvents he).1]; decide
    · simp at he
    · rw [(mem_locationEvents he).1]; decide
    · rcases (mem_deathEvents he).1 with ht | ht <;> rw [ht] <;> decide
    · rcases (mem_nearbyDeathEvents he).1 with ht | ht <;> rw [ht] <;> decide
    · rw [(mem_vehicleDestructionStep_snd he).1]; decide
  · rintro ⟨hdt, hdp⟩
    unfold processLine
    rw [connStep_of_parse_failure hfail]
    dsimp only
    have hnb : nearbyDeathEvents p line =
        [⟨p, "nearby_death", [("type", "unknown")], line⟩] := by
      unfold nearbyDeathEvents
      rw [if_pos hdt, hdp]
    rw [hnb]
    simp
  · simp only [processLines]
    rw [hplayer]

theorem C10_connection_parse_failure_witness :
    parseConnection c10line = none ∧
    (processLine "Alice" [] c10line).player = "Alice" ∧
    Event.mk "Alice" "nearby_death" [("type", "unknown")] c10line ∈
      (processLine "Alice" [] c10line).events :=
  ⟨by decide,
    (C10_connection_parse_failure "Alice" [] c10line [] (by decide)).1,
    (C10_connection_parse_failure "Alice" [] c10line [] (by decide)).2.2.1
      ⟨by decide, by decide⟩⟩

/-!  ### C5: fleet lifecycle -/

/-- A qualifying ship-entry line for entity `ORIG_m50_123` owned by the
tracked player. -/
def entryLine : String :=
  "<2024> [Notice] <Vehicle> OnEntityEnterZone: Entity [ORIG_m50_123] owned by m_ownerGEID[PlayerOne]"

/-- The matching destruction line. -/
def destrLine : String :=
  "<Vehicle Destruction> CVehicle::OnAdvanceDestroyLevel: Vehicle \x27ORIG_m50_123\x27 destroyed"

/-- The fleet entry the entry line creates. -/
def shipORIG : ShipData := ⟨"123", "ORIG_m50_123", "PlayerOne", "PlayerOne"⟩

/-- An unrelated fleet entry with a different id. -/
def otherShip : ShipData := ⟨"999", "DRAK_cutlass_999", "PlayerOne", "PlayerOne"⟩

/-- C5: the entry line adds exactly one fleet entry with id `123` and
appends no player event; the destruction line removes exactly the
entries with id `123` (leaving others) and appends one `ship_destroyed`
event with `ship=123`. -/
theorem C5_fleet_lifecycle :
    (processLine "PlayerOne" [] entryLine).fleet = [shipORIG] ∧
    shipORIG.id = "123" ∧
    (processLine "PlayerOne" [] entryLine).events = [] ∧
    (processLines "PlayerOne" [] [entryLine, destrLine]).fleet = [] ∧
    (processLines "PlayerOne" [] [entryLine, destrLine]).events =
      [⟨"PlayerOne", "ship_destroyed", [("ship", "123")], destrLine⟩] ∧
    (processLine "PlayerOne" [shipORIG, otherShip] destrLine).fleet = [otherShip] ∧
    (processLine "PlayerOne" [shipORIG, otherShip] destrLine).events =
      [⟨"PlayerOne", "ship_destroyed", [("ship", "123")], destrLine⟩] := by
  decide
